import Mathlib

/-!
Shallow embedding of `src/docker_container/lambda_batch_processor.py`:
the scheduled batch email-triage cycle (`lambda_handler`) that receives
queued references from SQS, loads the referenced email records from S3,
classifies them in one batch, archives or moves each one by category, and
acknowledges the queue envelopes.

External effects are made explicit parameters: the S3 object store is a
state value threaded through the transition helpers, injected faults
(`FailSpec`) stand for the exceptions boto3 calls can raise, the
tokenizer/model pair is abstracted as one batch inference call, and
`datetime.utcnow()` is a parameter holding its two renderings used by the
code.
-/

namespace GiddyAboutEmail

/-- A normalized email record as stored at a pending S3 key:
`{subject, sender, body}` (the JSON that `load_email_from_s3` decodes). -/
structure EmailData where
  subject : String
  sender : String
  body : String
deriving DecidableEq

/-- An object held by the S3 bucket: either a normalized email record or
the deletion-intent JSON written by `mark_for_deletion`. -/
inductive S3Content
  | email (d : EmailData)
  | deletionRecord (messageId category markedAt : String)
deriving DecidableEq

/-- The S3 bucket: keyed objects plus per-key tag sets
(`put_object_tagging`). -/
structure S3State where
  objects : String → Option S3Content
  tags : String → List (String × String)

/-- Fault injection for the boto3 S3 calls: each flag says whether the
corresponding call raises on the given key(s). This stands for the
exceptions the `except` blocks in the source catch. -/
structure FailSpec where
  copyFails : String → String → Bool
  tagFails : String → Bool
  putFails : String → Bool
  deleteFails : String → Bool
  getFails : String → Bool

/-- A store whose calls all succeed (absent-key errors still apply). -/
def noFail : FailSpec :=
  ⟨fun _ _ => false, fun _ => false, fun _ => false, fun _ => false, fun _ => false⟩

/-- A store whose every call raises. -/
def allFail : FailSpec :=
  ⟨fun _ _ => true, fun _ => true, fun _ => true, fun _ => true, fun _ => true⟩

/-- Write an object at a key. -/
def updObj (s : S3State) (k : String) (c : S3Content) : S3State :=
  { s with objects := fun x => if x = k then some c else s.objects x }

/-- Replace the tag set of a key. -/
def updTags (s : S3State) (k : String) (t : List (String × String)) : S3State :=
  { s with tags := fun x => if x = k then t else s.tags x }

/-- Remove a key (its object and its tags). -/
def delObj (s : S3State) (k : String) : S3State :=
  { objects := fun x => if x = k then none else s.objects x,
    tags := fun x => if x = k then [] else s.tags x }

/-- `s3.copy_object`: raises on an injected fault or a missing source key;
on success the destination holds the source's content and, per the default
tagging directive, the source's tags. -/
def s3_copy_object (fs : FailSpec) (s : S3State) (src dst : String) :
    Except Unit S3State :=
  if fs.copyFails src dst then .error () else
  match s.objects src with
  | none => .error ()
  | some c => .ok (updTags (updObj s dst c) dst (s.tags src))

/-- `s3.put_object_tagging`: raises on an injected fault or a missing key. -/
def s3_put_object_tagging (fs : FailSpec) (s : S3State) (k : String)
    (t : List (String × String)) : Except Unit S3State :=
  if fs.tagFails k then .error () else
  match s.objects k with
  | none => .error ()
  | some _ => .ok (updTags s k t)

/-- `s3.put_object`: raises only on an injected fault; overwrites the key
with the given content and an empty tag set. -/
def s3_put_object (fs : FailSpec) (s : S3State) (k : String) (c : S3Content) :
    Except Unit S3State :=
  if fs.putFails k then .error () else .ok (updTags (updObj s k c) k [])

/-- `s3.delete_object`: raises only on an injected fault; deleting an
absent key succeeds. -/
def s3_delete_object (fs : FailSpec) (s : S3State) (k : String) :
    Except Unit S3State :=
  if fs.deleteFails k then .error () else .ok (delObj s k)

/-- `s3.get_object`: raises on an injected fault or a missing key. -/
def s3_get_object (fs : FailSpec) (s : S3State) (k : String) :
    Except Unit S3Content :=
  if fs.getFails k then .error () else
  match s.objects k with
  | none => .error ()
  | some c => .ok c

/-- The two renderings of `datetime.utcnow()` the code uses: the
`%Y/%m/%d` path segment and the ISO-8601 string. -/
structure UtcNow where
  datePath : String
  iso : String
deriving DecidableEq

/-- `CATEGORY_MAP`: dictionary from the model's class index to the
category string; indexing outside the map raises `KeyError` (modelled as
`none`). -/
def CATEGORY_MAP (p : Nat) : Option String :=
  if p = 0 then some "spam"
  else if p = 1 then some "promotional"
  else if p = 2 then some "work"
  else if p = 3 then some "personal"
  else if p = 4 then some "low-priority"
  else if p = 5 then some "high-priority"
  else if p = 6 then some "newsletter"
  else none

/-- Python `str.split` with a one-character separator, used for the
`DELETE_CATEGORIES` environment variable. -/
def splitCommaAux : List Char → List Char → List String
  | [], acc => [String.mk acc.reverse]
  | c :: cs, acc =>
    if c = ',' then String.mk acc.reverse :: splitCommaAux cs []
    else splitCommaAux cs (c :: acc)

/-- `'...'.split(',')`. -/
def splitComma (s : String) : List String :=
  splitCommaAux s.toList []

/-- `DELETE_CATEGORIES` under the default environment:
`'spam,promotional,low-priority'.split(',')`. -/
def DELETE_CATEGORIES : List String :=
  splitComma "spam,promotional,low-priority"

/-- `should_delete_email`: membership of the category in the configured
delete list. -/
def should_delete_email (deleteCategories : List String) (category : String) :
    Bool :=
  deleteCategories.contains category

/-- A queue message as the handler reads it: the parsed JSON body
(`messageId`, `s3Key`) and the SQS receipt handle. -/
structure SqsMsg where
  messageId : String
  s3Key : String
  receiptHandle : String
deriving DecidableEq

/-- One entry of the handler's `emails` list: message identity, pending
key, loaded content and receipt handle. -/
structure EmailInfo where
  messageId : String
  s3Key : String
  data : S3Content
  receiptHandle : String
deriving DecidableEq

/-- The tokenizer/model pair abstracted as one batch inference call: a
list of texts to one raw class index per text, or an internal exception. -/
structure Classifier where
  infer : List String → Except Unit (List Nat)

/-- `f"Subject: {subject}\n\nFrom: {sender}\n\n{body}"`. -/
def emailText (d : EmailData) : String :=
  "Subject: " ++ d.subject ++ "\n\nFrom: " ++ d.sender ++ "\n\n" ++ d.body

/-- Python's character slice `text[:n]`. -/
def pySlice (s : String) (n : Nat) : String :=
  String.mk (s.toList.take n)

/-- Build one item's text, capped to 512 characters (`text[:512]`); a
record without the email fields raises `KeyError` (modelled as `none`). -/
def contentText : S3Content → Option String
  | .email d => some (pySlice (emailText d) 512)
  | _ => none

/-- The text-building loop of `batch_classify_emails`; the first record
that is not an email record aborts it (caught by the surrounding
`except`). -/
def buildTexts : List S3Content → Option (List String)
  | [] => some []
  | c :: cs =>
    match contentText c, buildTexts cs with
    | some t, some ts => some (t :: ts)
    | _, _ => none

/-- `[CATEGORY_MAP[pred.item()] for pred in predictions]`; a missing key
raises `KeyError` (caught by the surrounding `except`). -/
def mapCategories : List Nat → Option (List String)
  | [] => some []
  | p :: ps =>
    match CATEGORY_MAP p, mapCategories ps with
    | some c, some cs => some (c :: cs)
    | _, _ => none

/-- `batch_classify_emails`: build the texts, tokenize and run inference,
map raw predictions through `CATEGORY_MAP`; any exception inside yields
`['uncategorized'] * len(emails)`. -/
def batch_classify_emails (clf : Classifier) (emails : List EmailInfo) :
    List String :=
  match buildTexts (emails.map (·.data)) with
  | none => List.replicate emails.length "uncategorized"
  | some texts =>
    match clf.infer texts with
    | .error _ => List.replicate emails.length "uncategorized"
    | .ok predictions =>
      match mapCategories predictions with
      | none => List.replicate emails.length "uncategorized"
      | some categories => categories

/-- The archive destination
`f"archive/{category}/{date}/{messageId}.json"`. -/
def archiveKey (category : String) (now : UtcNow) (messageId : String) :
    String :=
  "archive/" ++ category ++ "/" ++ now.datePath ++ "/" ++ messageId ++ ".json"

/-- The processed destination
`f"processed/{category}/{date}/{messageId}.json"`. -/
def processedKey (category : String) (now : UtcNow) (messageId : String) :
    String :=
  "processed/" ++ category ++ "/" ++ now.datePath ++ "/" ++ messageId ++ ".json"

/-- The deletion-intent key `f"deletions/{date}/{messageId}.json"`. -/
def deletionKey (now : UtcNow) (messageId : String) : String :=
  "deletions/" ++ now.datePath ++ "/" ++ messageId ++ ".json"

/-- `archive_email`: copy the pending object to the archive key, then tag
it with category and deletion timestamp; any exception is caught and only
printed, leaving the state reached so far. -/
def archive_email (fs : FailSpec) (now : UtcNow) (s : S3State) (e : EmailInfo)
    (category : String) : S3State :=
  let key := archiveKey category now e.messageId
  match s3_copy_object fs s e.s3Key key with
  | .error _ => s
  | .ok s1 =>
    match s3_put_object_tagging fs s1 key
        [("category", category), ("deletedAt", now.iso)] with
    | .error _ => s1
    | .ok s2 => s2

/-- `mark_for_deletion`: write the deletion-intent record; any exception
is caught and only printed. -/
def mark_for_deletion (fs : FailSpec) (now : UtcNow) (s : S3State)
    (messageId category : String) : S3State :=
  match s3_put_object fs s (deletionKey now messageId)
      (.deletionRecord messageId category now.iso) with
  | .error _ => s
  | .ok s1 => s1

/-- `move_to_processed`: copy the pending object to the processed key,
then delete the pending copy; any exception is caught and only printed,
leaving the state reached so far. -/
def move_to_processed (fs : FailSpec) (now : UtcNow) (s : S3State)
    (e : EmailInfo) (category : String) : S3State :=
  let key := processedKey category now e.messageId
  match s3_copy_object fs s e.s3Key key with
  | .error _ => s
  | .ok s1 =>
    match s3_delete_object fs s1 e.s3Key with
    | .error _ => s1
    | .ok s2 => s2

/-- `receive_batch_messages`: a failing `sqs.receive_message` call is
caught and reported as an empty message list. -/
def receive_batch_messages (recv : Except Unit (List SqsMsg)) : List SqsMsg :=
  match recv with
  | .ok ms => ms
  | .error _ => []

/-- `load_email_from_s3`: fetch and decode one pending object; a failure
is re-raised to the caller. -/
def load_email_from_s3 (fs : FailSpec) (s : S3State) (s3Key : String) :
    Except Unit S3Content :=
  s3_get_object fs s s3Key

/-- The email-loading loop of `lambda_handler`: the first load failure
propagates and aborts the cycle. Also counts the store reads attempted. -/
def loadEmails (fs : FailSpec) (s : S3State) :
    List SqsMsg → Nat × Except Unit (List EmailInfo)
  | [] => (0, .ok [])
  | m :: ms =>
    match load_email_from_s3 fs s m.s3Key with
    | .error e => (1, .error e)
    | .ok c =>
      let r := loadEmails fs s ms
      (r.1 + 1,
       match r.2 with
       | .error e => .error e
       | .ok es => .ok (⟨m.messageId, m.s3Key, c, m.receiptHandle⟩ :: es))

/-- The per-item loop of `lambda_handler` over `zip(emails, categories)`:
archive-and-mark or move-to-processed by category, bump the matching
count, then `sqs.delete_message` on the receipt handle. Returns the final
store, the deleted and retained counts, and the acknowledged handles. -/
def processResults (fs : FailSpec) (deleteCategories : List String)
    (now : UtcNow) :
    S3State → List (EmailInfo × String) → S3State × Nat × Nat × List String
  | s, [] => (s, 0, 0, [])
  | s, (e, category) :: rest =>
    if should_delete_email deleteCategories category then
      let s1 := mark_for_deletion fs now (archive_email fs now s e category)
        e.messageId category
      let r := processResults fs deleteCategories now s1 rest
      (r.1, r.2.1 + 1, r.2.2.1, e.receiptHandle :: r.2.2.2)
    else
      let s1 := move_to_processed fs now s e category
      let r := processResults fs deleteCategories now s1 rest
      (r.1, r.2.1, r.2.2.1 + 1, e.receiptHandle :: r.2.2.2)

/-- A JSON value appearing in the handler's response body. -/
inductive JVal
  | str (v : String)
  | num (n : Nat)
deriving DecidableEq

/-- Field lookup in a JSON-object response body. -/
def jLookup (body : List (String × JVal)) (k : String) : Option JVal :=
  match body with
  | [] => none
  | (k', v) :: rest => if k' = k then some v else jLookup rest k

/-- Everything observable about one `lambda_handler` invocation: the
returned `{statusCode, body}` plus its side effects — the final bucket
state, the receipt handles acknowledged via `sqs.delete_message` — and
how many content-store reads and classifier inference calls were made. -/
structure CycleOutcome where
  statusCode : Nat
  body : List (String × JVal)
  store : S3State
  acked : List String
  storeReads : Nat
  inferCalls : Nat

/-- `lambda_handler`: one triage cycle. Model load, message receive and
the current time are explicit parameters; an exception escaping the body
is caught by the top-level `except` and reported as a 500 response. -/
def lambda_handler (fs : FailSpec) (deleteCategories : List String)
    (clf : Classifier) (modelLoad : Except Unit Unit)
    (recv : Except Unit (List SqsMsg)) (now : UtcNow) (s : S3State) :
    CycleOutcome :=
  match modelLoad with
  | .error _ => ⟨500, [("error", .str "model load failed")], s, [], 0, 0⟩
  | .ok _ =>
    match receive_batch_messages recv with
    | [] =>
      ⟨200, [("processed", .num 0), ("message", .str "No emails to process")],
       s, [], 0, 0⟩
    | m :: ms =>
      let lr := loadEmails fs s (m :: ms)
      match lr.2 with
      | .error _ => ⟨500, [("error", .str "load failed")], s, [], lr.1, 0⟩
      | .ok emails =>
        let categories := batch_classify_emails clf emails
        let r := processResults fs deleteCategories now s (emails.zip categories)
        ⟨200,
         [("processed", .num emails.length), ("deleted", .num r.2.1),
          ("retained", .num r.2.2.1), ("timestamp", .str now.iso)],
         r.1, r.2.2.2, lr.1, 1⟩

/-! Derived definitions and concrete scenario data used by the theorems. -/

/-- The closed category enumeration: the seven `CATEGORY_MAP` values plus
the fallback used when classification fails. -/
def ALL_CATEGORIES : List String :=
  ["spam", "promotional", "work", "personal", "low-priority", "high-priority",
   "newsletter", "uncategorized"]

/-- The archive-side state transition exactly as the handler performs it:
`archive_email` followed by `mark_for_deletion`. -/
def archiveTransition (fs : FailSpec) (now : UtcNow) (s : S3State)
    (e : EmailInfo) (category : String) : S3State :=
  mark_for_deletion fs now (archive_email fs now s e category)
    e.messageId category

/-- A fixed cycle timestamp. -/
def nowW : UtcNow := ⟨"2026/10/12", "2026-10-12T00:00:00"⟩

/-- An empty bucket. -/
def emptyStore : S3State := ⟨fun _ => none, fun _ => []⟩

/-- Scenario emails: a spam message, a work message and a newsletter. -/
def d1 : EmailData := ⟨"You won a prize", "spam@example.com", "Click now"⟩

def d2 : EmailData := ⟨"Quarterly report", "boss@corp.example", "Please review"⟩

def d3 : EmailData := ⟨"Weekly digest", "news@letters.example", "This week"⟩

def msg1 : SqsMsg := ⟨"msg1", "pending/msg1.json", "rh1"⟩

def msg2 : SqsMsg := ⟨"msg2", "pending/msg2.json", "rh2"⟩

def msg3 : SqsMsg := ⟨"msg3", "pending/msg3.json", "rh3"⟩

/-- A model that classifies the three scenario texts as spam (0),
work (2) and newsletter (6), one prediction per input text. -/
def classifyOne (t : String) : Nat :=
  if t = pySlice (emailText d1) 512 then 0
  else if t = pySlice (emailText d2) 512 then 2
  else if t = pySlice (emailText d3) 512 then 6
  else 0

/-- A classifier that never raises and returns one prediction per text. -/
def clf3 : Classifier := ⟨fun ts => .ok (ts.map classifyOne)⟩

/-- The bucket holding the three scenario emails at their pending keys. -/
def store3 : S3State :=
  ⟨fun k =>
    if k = "pending/msg1.json" then some (.email d1)
    else if k = "pending/msg2.json" then some (.email d2)
    else if k = "pending/msg3.json" then some (.email d3)
    else none,
   fun _ => []⟩

/-- The bucket holding only the second scenario email (the first pending
key is missing, so loading item 1 fails). -/
def storeM2 : S3State :=
  ⟨fun k => if k = "pending/msg2.json" then some (.email d2) else none,
   fun _ => []⟩

/-- Fault injection that fails every copy out of the first pending key
(the archive copy for item 1) and nothing else. -/
def fsCopyFail1 : FailSpec :=
  ⟨fun src _ => src == "pending/msg1.json", fun _ => false, fun _ => false,
   fun _ => false, fun _ => false⟩

/-- Fault injection that fails every transition-side call (copy, tag, put,
delete) but leaves reads working. -/
def fsTransFail : FailSpec :=
  ⟨fun _ _ => true, fun _ => true, fun _ => true, fun _ => true,
   fun _ => false⟩

/-- The loaded form of the three scenario messages, as the handler's
loading loop produces it from `store3`. -/
def emails3 : List EmailInfo :=
  [⟨"msg1", "pending/msg1.json", .email d1, "rh1"⟩,
   ⟨"msg2", "pending/msg2.json", .email d2, "rh2"⟩,
   ⟨"msg3", "pending/msg3.json", .email d3, "rh3"⟩]

/-- The three-item scenario cycle: default delete-set, healthy store. -/
def scenario3 : CycleOutcome :=
  lambda_handler noFail DELETE_CATEGORIES clf3 (.ok ()) (.ok [msg1, msg2, msg3])
    nowW store3

/-- The three-item scenario with the archive copy for item 1 failing. -/
def scenario3CopyFail : CycleOutcome :=
  lambda_handler fsCopyFail1 DELETE_CATEGORIES clf3 (.ok ())
    (.ok [msg1, msg2, msg3]) nowW store3

/-- A two-item cycle in which loading item 1's content fails. -/
def scenarioLoadFail : CycleOutcome :=
  lambda_handler noFail DELETE_CATEGORIES clf3 (.ok ()) (.ok [msg1, msg2])
    nowW storeM2

/-- A cycle whose `sqs.receive_message` call raises. -/
def scenarioRecvFail : CycleOutcome :=
  lambda_handler noFail DELETE_CATEGORIES clf3 (.ok ()) (.error ()) nowW
    emptyStore

/-! Helper lemmas. -/

theorem buildTexts_some_length {l : List S3Content} {ts : List String}
    (h : buildTexts l = some ts) : ts.length = l.length := by
  induction l generalizing ts with
  | nil =>
    simp only [buildTexts, Option.some.injEq] at h
    simp [← h]
  | cons c cs ih =>
    simp only [buildTexts] at h
    cases hc : contentText c with
    | none => rw [hc] at h; simp at h
    | some t =>
      rw [hc] at h
      cases hcs : buildTexts cs with
      | none => rw [hcs] at h; simp at h
      | some ts0 =>
        rw [hcs] at h
        simp only [Option.some.injEq] at h
        simp [← h, ih hcs]

theorem mapCategories_some_length {ps : List Nat} {cs : List String}
    (h : mapCategories ps = some cs) : cs.length = ps.length := by
  induction ps generalizing cs with
  | nil =>
    simp only [mapCategories, Option.some.injEq] at h
    simp [← h]
  | cons p ps ih =>
    simp only [mapCategories] at h
    cases hp : CATEGORY_MAP p with
    | none => rw [hp] at h; simp at h
    | some c =>
      rw [hp] at h
      cases hps : mapCategories ps with
      | none => rw [hps] at h; simp at h
      | some cs0 =>
        rw [hps] at h
        simp only [Option.some.injEq] at h
        simp [← h, ih hps]

/-- The classifier result has one entry per input email whenever the
model returns one prediction per text (the torch batch contract). -/
theorem batch_classify_emails_length (clf : Classifier)
    (emails : List EmailInfo)
    (hclf : ∀ ts ps, clf.infer ts = .ok ps → ps.length = ts.length) :
    (batch_classify_emails clf emails).length = emails.length := by
  unfold batch_classify_emails
  cases hb : buildTexts (emails.map (·.data)) with
  | none => simp
  | some texts =>
    dsimp only
    have hbl : texts.length = emails.length := by
      simpa using buildTexts_some_length hb
    cases hi : clf.infer texts with
    | error e => simp
    | ok preds =>
      dsimp only
      have hpl := hclf _ _ hi
      cases hm : mapCategories preds with
      | none => simp
      | some cats =>
        dsimp only
        exact (mapCategories_some_length hm).trans (hpl.trans hbl)

theorem CATEGORY_MAP_mem {p : Nat} {c : String}
    (h : CATEGORY_MAP p = some c) : c ∈ ALL_CATEGORIES := by
  unfold CATEGORY_MAP at h
  split_ifs at h <;> simp_all [ALL_CATEGORIES]

theorem CATEGORY_MAP_ne_fallback {p : Nat} {c : String}
    (h : CATEGORY_MAP p = some c) : c ≠ "uncategorized" := by
  intro heq
  subst heq
  unfold CATEGORY_MAP at h
  split_ifs at h <;> exact absurd h (by decide)

theorem mapCategories_mem {ps : List Nat} {cs : List String}
    (h : mapCategories ps = some cs) {c : String} (hc : c ∈ cs) :
    c ∈ ALL_CATEGORIES := by
  induction ps generalizing cs with
  | nil =>
    simp only [mapCategories, Option.some.injEq] at h
    rw [← h] at hc
    simp at hc
  | cons p ps ih =>
    simp only [mapCategories] at h
    cases hp : CATEGORY_MAP p with
    | none => rw [hp] at h; simp at h
    | some c0 =>
      rw [hp] at h
      cases hps : mapCategories ps with
      | none => rw [hps] at h; simp at h
      | some cs0 =>
        rw [hps] at h
        simp only [Option.some.injEq] at h
        rw [← h] at hc
        rcases List.mem_cons.mp hc with hc | hc
        · rw [hc]; exact CATEGORY_MAP_mem hp
        · exact ih hps hc

theorem mapCategories_no_fallback {ps : List Nat} {cs : List String}
    (h : mapCategories ps = some cs) : "uncategorized" ∉ cs := by
  induction ps generalizing cs with
  | nil =>
    simp only [mapCategories, Option.some.injEq] at h
    simp [← h]
  | cons p ps ih =>
    simp only [mapCategories] at h
    cases hp : CATEGORY_MAP p with
    | none => rw [hp] at h; simp at h
    | some c0 =>
      rw [hp] at h
      cases hps : mapCategories ps with
      | none => rw [hps] at h; simp at h
      | some cs0 =>
        rw [hps] at h
        simp only [Option.some.injEq] at h
        rw [← h]
        intro hmem
        rcases List.mem_cons.mp hmem with hc | hc
        · exact CATEGORY_MAP_ne_fallback hp hc.symm
        · exact ih hps hc

/-- Every item handed to the per-item loop gets its receipt handle
acknowledged, whatever the store does. -/
theorem processResults_acked (fs : FailSpec) (deleteCategories : List String)
    (now : UtcNow) (s : S3State) (pairs : List (EmailInfo × String)) :
    (processResults fs deleteCategories now s pairs).2.2.2 =
      pairs.map (fun p => p.1.receiptHandle) := by
  induction pairs generalizing s with
  | nil => rfl
  | cons pc rest ih =>
    obtain ⟨e, c⟩ := pc
    by_cases hd : should_delete_email deleteCategories c = true
    · simp [processResults, hd, ih]
    · simp [processResults, hd, ih]

/-- The deleted/retained counts of the per-item loop depend only on the
category list, never on whether the store calls succeeded. -/
theorem processResults_counts (fs : FailSpec) (deleteCategories : List String)
    (now : UtcNow) (s : S3State) (pairs : List (EmailInfo × String)) :
    (processResults fs deleteCategories now s pairs).2.1 =
      (pairs.filter (fun p => should_delete_email deleteCategories p.2)).length
    ∧ (processResults fs deleteCategories now s pairs).2.2.1 =
      (pairs.filter (fun p => ¬ should_delete_email deleteCategories p.2)).length := by
  induction pairs generalizing s with
  | nil => exact ⟨rfl, rfl⟩
  | cons pc rest ih =>
    obtain ⟨e, c⟩ := pc
    by_cases hd : should_delete_email deleteCategories c = true
    · simpa [processResults, hd] using ih _
    · simpa [processResults, hd] using ih _

/-- A successful load loop preserves order, receipt handles and length. -/
theorem loadEmails_ok {fs : FailSpec} {s : S3State} {msgs : List SqsMsg}
    {n : Nat} {emails : List EmailInfo}
    (h : loadEmails fs s msgs = (n, .ok emails)) :
    emails.map (·.receiptHandle) = msgs.map (·.receiptHandle)
    ∧ emails.length = msgs.length := by
  induction msgs generalizing n emails with
  | nil =>
    simp only [loadEmails, Prod.mk.injEq] at h
    obtain ⟨-, h⟩ := h
    cases h
    exact ⟨rfl, rfl⟩
  | cons m ms ih =>
    simp only [loadEmails] at h
    cases hl : load_email_from_s3 fs s m.s3Key with
    | error e => rw [hl] at h; simp at h
    | ok c =>
      rw [hl] at h
      cases hr : (loadEmails fs s ms).2 with
      | error e => rw [hr] at h; simp at h
      | ok es =>
        rw [hr] at h
        simp only [Prod.mk.injEq, Except.ok.injEq] at h
        obtain ⟨-, h2⟩ := h
        have hms : loadEmails fs s ms = ((loadEmails fs s ms).1, .ok es) := by
          rw [← hr]
        obtain ⟨h1, hlen⟩ := ih hms
        refine ⟨?_, ?_⟩ <;> rw [← h2] <;> simp [h1, hlen]

/-! Claim theorems. -/

/-- C7: `should_delete_email` holds exactly on membership of the category
in the configured delete list; the default `DELETE_CATEGORIES` is
`["spam", "promotional", "low-priority"]`, and under it the fallback
category `"uncategorized"` is retained, not deleted. -/
theorem should_delete_email_spec (deleteCategories : List String)
    (category : String) :
    (should_delete_email deleteCategories category = true ↔
      category ∈ deleteCategories)
    ∧ DELETE_CATEGORIES = ["spam", "promotional", "low-priority"]
    ∧ should_delete_email DELETE_CATEGORIES "uncategorized" = false := by
  refine ⟨?_, by decide, by decide⟩
  simp [should_delete_email]

/-- C8 counterexample: on an empty receive the handler's body is
`{'processed': 0, 'message': 'No emails to process'}` — it does not carry
the `received`/`archived`/`errors` count fields the claim names. -/
theorem empty_receive_shape_cex :
    ¬(jLookup (lambda_handler noFail DELETE_CATEGORIES clf3 (.ok ()) (.ok [])
        nowW emptyStore).body "received" = some (.num 0)
      ∧ jLookup (lambda_handler noFail DELETE_CATEGORIES clf3 (.ok ())
        (.ok []) nowW emptyStore).body "errors" = some (.num 0)) := by
  decide

/-- C8 amended: an empty receive ends the cycle as a successful no-op —
status 200 with body `{'processed': 0, 'message': 'No emails to
process'}`, no store read, no inference call, nothing acknowledged, and
the bucket unchanged. -/
theorem empty_receive_noop (fs : FailSpec) (deleteCategories : List String)
    (clf : Classifier) (now : UtcNow) (s : S3State) :
    lambda_handler fs deleteCategories clf (.ok ()) (.ok []) now s =
      ⟨200, [("processed", .num 0), ("message", .str "No emails to process")],
       s, [], 0, 0⟩ := rfl

/-- C4 counterexample: when `sqs.receive_message` raises, the cycle is
reported as a successful empty run (status 200, no `error` field), not as
an aborted one. -/
theorem receive_failure_cex :
    scenarioRecvFail.statusCode = 200
    ∧ jLookup scenarioRecvFail.body "error" = none
    ∧ ¬ scenarioRecvFail.statusCode = 500 := by
  decide

/-- C4 amended: a failing receive call is caught inside
`receive_batch_messages` and reported as an empty message list, so the
cycle ends as a successful no-op (status 200, `processed: 0`) with no
envelope acknowledged and the bucket unchanged; the failure is not
surfaced to the caller. -/
theorem receive_failure_silent_noop (fs : FailSpec)
    (deleteCategories : List String) (clf : Classifier) (now : UtcNow)
    (s : S3State) :
    lambda_handler fs deleteCategories clf (.ok ()) (.error ()) now s =
      ⟨200, [("processed", .num 0), ("message", .str "No emails to process")],
       s, [], 0, 0⟩ := rfl

/-- C2: `batch_classify_emails` returns one category per input email, for
every batch size, under the model's one-prediction-per-text contract; and
when inference raises for the batch it returns the full-length fallback
list `['uncategorized'] * len(emails)` instead of propagating the
exception. -/
theorem batch_classify_emails_total (clf : Classifier)
    (emails : List EmailInfo)
    (hclf : ∀ ts ps, clf.infer ts = .ok ps → ps.length = ts.length) :
    (batch_classify_emails clf emails).length = emails.length
    ∧ (∀ e ts, buildTexts (emails.map (·.data)) = some ts →
        clf.infer ts = .error e →
        batch_classify_emails clf emails =
          List.replicate emails.length "uncategorized") := by
  refine ⟨batch_classify_emails_length clf emails hclf, ?_⟩
  intro e ts hb hi
  unfold batch_classify_emails
  rw [hb]
  dsimp only
  rw [hi]

/-- C2 witness: the theorem applied at a concrete one-email batch and a
classifier satisfying the one-prediction-per-text contract. -/
theorem batch_classify_emails_total_witness :
    (batch_classify_emails clf3
        [⟨"msg1", "pending/msg1.json", .email d1, "rh1"⟩]).length = 1
    ∧ (∀ e ts,
        buildTexts ([(⟨"msg1", "pending/msg1.json", .email d1, "rh1"⟩ :
          EmailInfo)].map (·.data)) = some ts →
        clf3.infer ts = .error e →
        batch_classify_emails clf3
            [⟨"msg1", "pending/msg1.json", .email d1, "rh1"⟩] =
          List.replicate 1 "uncategorized") :=
  batch_classify_emails_total clf3
    [⟨"msg1", "pending/msg1.json", .email d1, "rh1"⟩]
    (by
      intro ts ps h
      simp only [clf3, Except.ok.injEq] at h
      subst h
      simp)

/-- C9: every category `batch_classify_emails` returns lies in the closed
enumeration `ALL_CATEGORIES` (the seven `CATEGORY_MAP` values plus the
fallback `"uncategorized"`), and the fallback arises only through the
exception path: when text building, inference and category mapping all
succeed, `"uncategorized"` is absent from the result. -/
theorem batch_classify_categories_closed (clf : Classifier)
    (emails : List EmailInfo) (c : String)
    (hc : c ∈ batch_classify_emails clf emails) :
    c ∈ ALL_CATEGORIES
    ∧ (∀ ts preds cats, buildTexts (emails.map (·.data)) = some ts →
        clf.infer ts = .ok preds → mapCategories preds = some cats →
        "uncategorized" ∉ batch_classify_emails clf emails) := by
  constructor
  · unfold batch_classify_emails at hc
    cases hb : buildTexts (emails.map (·.data)) with
    | none =>
      rw [hb] at hc
      simp only [List.mem_replicate] at hc
      simp [hc.2, ALL_CATEGORIES]
    | some texts =>
      rw [hb] at hc
      dsimp only at hc
      cases hi : clf.infer texts with
      | error e =>
        rw [hi] at hc
        simp only [List.mem_replicate] at hc
        simp [hc.2, ALL_CATEGORIES]
      | ok preds =>
        rw [hi] at hc
        dsimp only at hc
        cases hm : mapCategories preds with
        | none =>
          rw [hm] at hc
          simp only [List.mem_replicate] at hc
          simp [hc.2, ALL_CATEGORIES]
        | some cats =>
          rw [hm] at hc
          exact mapCategories_mem hm hc
  · intro ts preds cats hb hi hm
    unfold batch_classify_emails
    rw [hb]
    dsimp only
    rw [hi]
    dsimp only
    rw [hm]
    exact mapCategories_no_fallback hm

set_option maxRecDepth 8192 in
/-- C9 witness: the theorem applied to `"spam"`, which the concrete
scenario classifier produces for the first scenario email. -/
theorem batch_classify_categories_closed_witness :
    "spam" ∈ ALL_CATEGORIES
    ∧ (∀ ts preds cats, buildTexts (emails3.map (·.data)) = some ts →
        clf3.infer ts = .ok preds → mapCategories preds = some cats →
        "uncategorized" ∉ batch_classify_emails clf3 emails3) :=
  batch_classify_categories_closed clf3 emails3 "spam" (by decide)

set_option maxRecDepth 8192 in
/-- C5 counterexample: at the 3-item scenario input the cycle result does
not have the claimed shape `{received: 3, archived: 1, processed: 2,
errors: 0}`: the body carries no `received`, `archived` or `errors`
field, and its `processed` field is the received count 3, not the
retained count 2. -/
theorem cycle_result_shape_cex :
    ¬(jLookup scenario3.body "received" = some (.num 3)
      ∧ jLookup scenario3.body "archived" = some (.num 1)
      ∧ jLookup scenario3.body "processed" = some (.num 2)
      ∧ jLookup scenario3.body "errors" = some (.num 0))
    ∧ jLookup scenario3.body "received" = none
    ∧ jLookup scenario3.body "archived" = none
    ∧ jLookup scenario3.body "errors" = none
    ∧ jLookup scenario3.body "processed" = some (.num 3) := by
  decide

set_option maxRecDepth 8192 in
/-- C5 amended: the cycle returns `{statusCode, body}` where the body has
fields `processed` (items received), `deleted` (archived count),
`retained` (processed-move count) and `timestamp`, with no error count.
On the 3-item scenario (spam, work, newsletter under the default
delete-set): item 1 is copied to `archive/spam/...`, tagged, and a
deletion-intent record is written while its pending copy stays; items 2
and 3 are copied to `processed/work/...` and `processed/newsletter/...`
and their pending copies removed; all three envelopes are acknowledged
and the body is `{processed: 3, deleted: 1, retained: 2, timestamp}`. -/
theorem three_item_scenario :
    scenario3.statusCode = 200
    ∧ scenario3.body =
        [("processed", .num 3), ("deleted", .num 1), ("retained", .num 2),
         ("timestamp", .str nowW.iso)]
    ∧ scenario3.store.objects (archiveKey "spam" nowW "msg1") =
        some (.email d1)
    ∧ scenario3.store.tags (archiveKey "spam" nowW "msg1") =
        [("category", "spam"), ("deletedAt", nowW.iso)]
    ∧ scenario3.store.objects (deletionKey nowW "msg1") =
        some (.deletionRecord "msg1" "spam" nowW.iso)
    ∧ scenario3.store.objects "pending/msg1.json" = some (.email d1)
    ∧ scenario3.store.objects (processedKey "work" nowW "msg2") =
        some (.email d2)
    ∧ scenario3.store.objects "pending/msg2.json" = none
    ∧ scenario3.store.objects (processedKey "newsletter" nowW "msg3") =
        some (.email d3)
    ∧ scenario3.store.objects "pending/msg3.json" = none
    ∧ scenario3.acked = ["rh1", "rh2", "rh3"] := by
  decide

set_option maxRecDepth 8192 in
/-- C1 counterexample: with the archive copy for item 1 failing, the item
is not archived — no object ever appears at its archive key — yet its
queue envelope is still acknowledged in the same cycle. -/
theorem ack_despite_copy_failure_cex :
    scenario3CopyFail.store.objects (archiveKey "spam" nowW "msg1") = none
    ∧ "rh1" ∈ scenario3CopyFail.acked := by
  decide

/-- C1 amended: acknowledgement is unconditional per loaded item. The
transition helpers swallow their own failures, so whatever the store does
— failed archive copy, failed deletion-intent write, failed
processed-move — every loaded item's receipt handle is passed to
`sqs.delete_message`; envelopes stay un-acknowledged only when the cycle
aborts before the per-item loop. -/
theorem ack_unconditional (fs : FailSpec) (deleteCategories : List String)
    (clf : Classifier) (now : UtcNow) (s : S3State) (msgs : List SqsMsg)
    (n : Nat) (emails : List EmailInfo)
    (hload : loadEmails fs s msgs = (n, .ok emails))
    (hclf : ∀ ts ps, clf.infer ts = .ok ps → ps.length = ts.length) :
    (lambda_handler fs deleteCategories clf (.ok ()) (.ok msgs) now s).acked =
      msgs.map (·.receiptHandle) := by
  cases msgs with
  | nil => rfl
  | cons m ms =>
    have hlen : (batch_classify_emails clf emails).length = emails.length :=
      batch_classify_emails_length clf emails hclf
    have hmap := (loadEmails_ok hload).1
    simp only [lambda_handler, receive_batch_messages, hload]
    rw [processResults_acked]
    have : (fun (p : EmailInfo × String) => p.1.receiptHandle) =
        (fun e : EmailInfo => e.receiptHandle) ∘ Prod.fst := rfl
    rw [this, ← List.map_map, List.map_fst_zip _ _ (le_of_eq hlen.symm), hmap]

/-- C1 witness: the amended theorem applied at the scenario in which the
archive copy for item 1 fails; all three handles are acknowledged. -/
theorem ack_unconditional_witness :
    (lambda_handler fsCopyFail1 DELETE_CATEGORIES clf3 (.ok ())
        (.ok [msg1, msg2, msg3]) nowW store3).acked =
      [msg1, msg2, msg3].map (·.receiptHandle) :=
  ack_unconditional fsCopyFail1 DELETE_CATEGORIES clf3 nowW store3
    [msg1, msg2, msg3] 3 emails3 (by rfl)
    (by
      intro ts ps h
      simp only [clf3, Except.ok.injEq] at h
      subst h
      simp)

/-- C3 counterexample: in a two-item batch in which loading item 1's
content fails, the cycle aborts with a 500 error: item 2 is neither
classified nor transitioned (nothing appears at its processed key,
no inference call is made) and no envelope is acknowledged. -/
theorem load_failure_aborts_cex :
    scenarioLoadFail.statusCode = 500
    ∧ scenarioLoadFail.acked = []
    ∧ scenarioLoadFail.inferCalls = 0
    ∧ scenarioLoadFail.store.objects (processedKey "work" nowW "msg2") =
        none := by
  decide

/-- C3 amended: one load failure aborts the whole cycle. The exception
propagates out of `load_email_from_s3` through the loading loop to the
top-level handler, which reports a 500 error: no item of the batch is
classified or transitioned, nothing is acknowledged, and the bucket is
unchanged. -/
theorem load_failure_aborts (fs : FailSpec) (deleteCategories : List String)
    (clf : Classifier) (now : UtcNow) (s : S3State) (m : SqsMsg)
    (ms : List SqsMsg) (n : Nat) (e : Unit)
    (hload : loadEmails fs s (m :: ms) = (n, .error e)) :
    lambda_handler fs deleteCategories clf (.ok ()) (.ok (m :: ms)) now s =
      ⟨500, [("error", .str "load failed")], s, [], n, 0⟩ := by
  simp [lambda_handler, receive_batch_messages, hload]

/-- C3 witness: the amended theorem applied at the concrete two-item
batch whose first pending key is missing. -/
theorem load_failure_aborts_witness :
    lambda_handler noFail DELETE_CATEGORIES clf3 (.ok ()) (.ok [msg1, msg2])
        nowW storeM2 =
      ⟨500, [("error", .str "load failed")], storeM2, [], 1, 0⟩ :=
  load_failure_aborts noFail DELETE_CATEGORIES clf3 nowW storeM2 msg1 [msg2]
    1 () (by rfl)

/-- C10: the transition helpers catch every store exception internally
and return plain states: with every store call failing they leave the
state untouched (nothing propagates to the caller), and the cycle's
reported counts are a function of the category list alone, so a failed
copy, tag, put or delete leaves no trace in the returned counts. -/
theorem transitions_swallow_failures (fs : FailSpec)
    (deleteCategories : List String) (clf : Classifier) (now : UtcNow)
    (s : S3State) (m : SqsMsg) (ms : List SqsMsg) (n : Nat)
    (emails : List EmailInfo)
    (hload : loadEmails fs s (m :: ms) = (n, .ok emails)) :
    (∀ s' e category, archive_email allFail now s' e category = s')
    ∧ (∀ s' messageId category,
        mark_for_deletion allFail now s' messageId category = s')
    ∧ (∀ s' e category, move_to_processed allFail now s' e category = s')
    ∧ (lambda_handler fs deleteCategories clf (.ok ()) (.ok (m :: ms)) now
        s).statusCode = 200
    ∧ jLookup (lambda_handler fs deleteCategories clf (.ok ())
        (.ok (m :: ms)) now s).body "deleted" =
      some (.num (((emails.zip (batch_classify_emails clf emails)).filter
        (fun p => should_delete_email deleteCategories p.2)).length))
    ∧ jLookup (lambda_handler fs deleteCategories clf (.ok ())
        (.ok (m :: ms)) now s).body "retained" =
      some (.num (((emails.zip (batch_classify_emails clf emails)).filter
        (fun p => ¬ should_delete_email deleteCategories p.2)).length)) := by
  refine ⟨fun s' e category => rfl, fun s' messageId category => rfl,
    fun s' e category => rfl, ?_, ?_, ?_⟩ <;>
    simp [lambda_handler, receive_batch_messages, hload, jLookup,
      (processResults_counts fs deleteCategories now s
        (emails.zip (batch_classify_emails clf emails))).1,
      (processResults_counts fs deleteCategories now s
        (emails.zip (batch_classify_emails clf emails))).2]

/-- C10 witness: with every transition-side store call failing, the
scenario cycle still reports `deleted: 1, retained: 2` and status 200. -/
theorem transitions_swallow_failures_witness :
    (∀ s' e category, archive_email allFail nowW s' e category = s')
    ∧ (∀ s' messageId category,
        mark_for_deletion allFail nowW s' messageId category = s')
    ∧ (∀ s' e category, move_to_processed allFail nowW s' e category = s')
    ∧ (lambda_handler fsTransFail DELETE_CATEGORIES clf3 (.ok ())
        (.ok [msg1, msg2, msg3]) nowW store3).statusCode = 200
    ∧ jLookup (lambda_handler fsTransFail DELETE_CATEGORIES clf3 (.ok ())
        (.ok [msg1, msg2, msg3]) nowW store3).body "deleted" =
      some (.num (((emails3.zip (batch_classify_emails clf3 emails3)).filter
        (fun p => should_delete_email DELETE_CATEGORIES p.2)).length))
    ∧ jLookup (lambda_handler fsTransFail DELETE_CATEGORIES clf3 (.ok ())
        (.ok [msg1, msg2, msg3]) nowW store3).body "retained" =
      some (.num (((emails3.zip (batch_classify_emails clf3 emails3)).filter
        (fun p => ¬ should_delete_email DELETE_CATEGORIES p.2)).length)) :=
  transitions_swallow_failures fsTransFail DELETE_CATEGORIES clf3 nowW store3
    msg1 [msg2, msg3] 3 emails3 (by rfl)

/-! Pointwise evaluation lemmas for the store primitives, used for the
idempotence proof. -/

@[simp]
theorem updObj_objects (s : S3State) (k : String) (c : S3Content)
    (x : String) :
    (updObj s k c).objects x = if x = k then some c else s.objects x := rfl

@[simp]
theorem updObj_tags (s : S3State) (k : String) (c : S3Content) :
    (updObj s k c).tags = s.tags := rfl

@[simp]
theorem updTags_objects (s : S3State) (k : String)
    (t : List (String × String)) : (updTags s k t).objects = s.objects := rfl

@[simp]
theorem updTags_tags (s : S3State) (k : String) (t : List (String × String))
    (x : String) :
    (updTags s k t).tags x = if x = k then t else s.tags x := rfl

@[simp]
theorem delObj_objects (s : S3State) (k x : String) :
    (delObj s k).objects x = if x = k then none else s.objects x := rfl

@[simp]
theorem delObj_tags (s : S3State) (k x : String) :
    (delObj s k).tags x = if x = k then [] else s.tags x := rfl

theorem state_ext {s t : S3State} (ho : ∀ x, s.objects x = t.objects x)
    (ht : ∀ x, s.tags x = t.tags x) : s = t := by
  cases s
  cases t
  congr 1
  · exact funext ho
  · exact funext ht

theorem archive_copy_fail (fs : FailSpec) (now : UtcNow) (e : EmailInfo)
    (category : String)
    (h : fs.copyFails e.s3Key (archiveKey category now e.messageId) = true)
    (s : S3State) :
    archive_email fs now s e category = s := by
  unfold archive_email s3_copy_object
  simp [h]

theorem archive_src_none (fs : FailSpec) (now : UtcNow) (e : EmailInfo)
    (category : String)
    (hcf : fs.copyFails e.s3Key (archiveKey category now e.messageId) = false)
    (s : S3State) (hsrc : s.objects e.s3Key = none) :
    archive_email fs now s e category = s := by
  unfold archive_email s3_copy_object
  simp [hcf, hsrc]

theorem archive_some_tagfail (fs : FailSpec) (now : UtcNow) (e : EmailInfo)
    (category : String) (c : S3Content)
    (hcf : fs.copyFails e.s3Key (archiveKey category now e.messageId) = false)
    (htf : fs.tagFails (archiveKey category now e.messageId) = true)
    (s : S3State) (hsrc : s.objects e.s3Key = some c) :
    archive_email fs now s e category =
      updTags (updObj s (archiveKey category now e.messageId) c)
        (archiveKey category now e.messageId) (s.tags e.s3Key) := by
  unfold archive_email s3_copy_object s3_put_object_tagging
  simp [hcf, hsrc, htf]

theorem archive_some_ok (fs : FailSpec) (now : UtcNow) (e : EmailInfo)
    (category : String) (c : S3Content)
    (hcf : fs.copyFails e.s3Key (archiveKey category now e.messageId) = false)
    (htf : fs.tagFails (archiveKey category now e.messageId) = false)
    (s : S3State) (hsrc : s.objects e.s3Key = some c) :
    archive_email fs now s e category =
      updTags
        (updTags (updObj s (archiveKey category now e.messageId) c)
          (archiveKey category now e.messageId) (s.tags e.s3Key))
        (archiveKey category now e.messageId)
        [("category", category), ("deletedAt", now.iso)] := by
  unfold archive_email s3_copy_object s3_put_object_tagging
  simp [hcf, hsrc, htf]

theorem mark_putfail (fs : FailSpec) (now : UtcNow) (mid category : String)
    (h : fs.putFails (deletionKey now mid) = true) (s : S3State) :
    mark_for_deletion fs now s mid category = s := by
  unfold mark_for_deletion s3_put_object
  simp [h]

theorem mark_ok (fs : FailSpec) (now : UtcNow) (mid category : String)
    (h : fs.putFails (deletionKey now mid) = false) (s : S3State) :
    mark_for_deletion fs now s mid category =
      updTags
        (updObj s (deletionKey now mid) (.deletionRecord mid category now.iso))
        (deletionKey now mid) [] := by
  unfold mark_for_deletion s3_put_object
  simp [h]

theorem mark_objects_ne (fs : FailSpec) (now : UtcNow) (mid category : String)
    (s : S3State) {x : String} (hx : x ≠ deletionKey now mid) :
    (mark_for_deletion fs now s mid category).objects x = s.objects x := by
  cases h : fs.putFails (deletionKey now mid) with
  | true => rw [mark_putfail fs now mid category h]
  | false => rw [mark_ok fs now mid category h]; simp [hx]

theorem mark_idem (fs : FailSpec) (now : UtcNow) (mid category : String)
    (s : S3State) :
    mark_for_deletion fs now (mark_for_deletion fs now s mid category) mid
      category = mark_for_deletion fs now s mid category := by
  cases h : fs.putFails (deletionKey now mid) with
  | true => simp only [mark_putfail fs now mid category h]
  | false =>
    simp only [mark_ok fs now mid category h]
    apply state_ext <;> intro x <;>
      by_cases hx : x = deletionKey now mid <;> simp [hx]

theorem move_copy_fail (fs : FailSpec) (now : UtcNow) (e : EmailInfo)
    (category : String)
    (h : fs.copyFails e.s3Key (processedKey category now e.messageId) = true)
    (s : S3State) :
    move_to_processed fs now s e category = s := by
  unfold move_to_processed s3_copy_object
  simp [h]

theorem move_src_none (fs : FailSpec) (now : UtcNow) (e : EmailInfo)
    (category : String)
    (hcf : fs.copyFails e.s3Key (processedKey category now e.messageId) = false)
    (s : S3State) (hsrc : s.objects e.s3Key = none) :
    move_to_processed fs now s e category = s := by
  unfold move_to_processed s3_copy_object
  simp [hcf, hsrc]

theorem move_some_delfail (fs : FailSpec) (now : UtcNow) (e : EmailInfo)
    (category : String) (c : S3Content)
    (hcf : fs.copyFails e.s3Key (processedKey category now e.messageId) = false)
    (hdf : fs.deleteFails e.s3Key = true)
    (s : S3State) (hsrc : s.objects e.s3Key = some c) :
    move_to_processed fs now s e category =
      updTags (updObj s (processedKey category now e.messageId) c)
        (processedKey category now e.messageId) (s.tags e.s3Key) := by
  unfold move_to_processed s3_copy_object s3_delete_object
  simp [hcf, hsrc, hdf]

theorem move_some_ok (fs : FailSpec) (now : UtcNow) (e : EmailInfo)
    (category : String) (c : S3Content)
    (hcf : fs.copyFails e.s3Key (processedKey category now e.messageId) = false)
    (hdf : fs.deleteFails e.s3Key = false)
    (s : S3State) (hsrc : s.objects e.s3Key = some c) :
    move_to_processed fs now s e category =
      delObj
        (updTags (updObj s (processedKey category now e.messageId) c)
          (processedKey category now e.messageId) (s.tags e.s3Key))
        e.s3Key := by
  unfold move_to_processed s3_copy_object s3_delete_object
  simp [hcf, hsrc, hdf]

/-- C6: re-running a state transition for the same item, category and
timestamp — hence the same destination key — is idempotent: the archive
transition (`archive_email` then `mark_for_deletion`) and
`move_to_processed` each produce the same bucket state run twice as run
once, under any injected store faults, provided the item's pending key is
not itself the deletion-intent key. In particular there is no duplicate
archive entry and no error on re-copying to an existing identical key. -/
theorem transition_idempotent (fs : FailSpec) (now : UtcNow) (s : S3State)
    (e : EmailInfo) (category : String)
    (hkd : e.s3Key ≠ deletionKey now e.messageId) :
    archiveTransition fs now (archiveTransition fs now s e category) e
        category = archiveTransition fs now s e category
    ∧ move_to_processed fs now (move_to_processed fs now s e category) e
        category = move_to_processed fs now s e category := by
  constructor
  · unfold archiveTransition
    cases hcf : fs.copyFails e.s3Key (archiveKey category now e.messageId) with
    | true =>
      simp only [archive_copy_fail fs now e category hcf]
      exact mark_idem fs now e.messageId category s
    | false =>
      cases hsrc : s.objects e.s3Key with
      | none =>
        rw [archive_src_none fs now e category hcf s hsrc]
        have hsrc2 : (mark_for_deletion fs now s e.messageId
            category).objects e.s3Key = none := by
          rw [mark_objects_ne fs now e.messageId category s hkd, hsrc]
        rw [archive_src_none fs now e category hcf _ hsrc2]
        exact mark_idem fs now e.messageId category s
      | some c =>
        cases htf : fs.tagFails (archiveKey category now e.messageId) with
        | true =>
          rw [archive_some_tagfail fs now e category c hcf htf s hsrc]
          have hmo : (mark_for_deletion fs now
              (updTags (updObj s (archiveKey category now e.messageId) c)
                (archiveKey category now e.messageId) (s.tags e.s3Key))
              e.messageId category).objects e.s3Key = some c := by
            rw [mark_objects_ne fs now e.messageId category _ hkd]
            by_cases hka : e.s3Key = archiveKey category now e.messageId <;>
              simp [hka, hsrc]
          rw [archive_some_tagfail fs now e category c hcf htf _ hmo]
          cases hpf : fs.putFails (deletionKey now e.messageId) with
          | true =>
            simp only [mark_putfail fs now e.messageId category hpf]
            apply state_ext <;> intro x <;>
              by_cases hx : x = archiveKey category now e.messageId <;>
              simp [hx, hsrc, hkd]
          | false =>
            simp only [mark_ok fs now e.messageId category hpf]
            apply state_ext <;> intro x <;>
              by_cases hx1 : x = deletionKey now e.messageId <;>
              by_cases hx2 : x = archiveKey category now e.messageId <;>
              simp [hx1, hx2, hsrc, hkd]
        | false =>
          rw [archive_some_ok fs now e category c hcf htf s hsrc]
          have hmo : (mark_for_deletion fs now
              (updTags
                (updTags (updObj s (archiveKey category now e.messageId) c)
                  (archiveKey category now e.messageId) (s.tags e.s3Key))
                (archiveKey category now e.messageId)
                [("category", category), ("deletedAt", now.iso)])
              e.messageId category).objects e.s3Key = some c := by
            rw [mark_objects_ne fs now e.messageId category _ hkd]
            by_cases hka : e.s3Key = archiveKey category now e.messageId <;>
              simp [hka, hsrc]
          rw [archive_some_ok fs now e category c hcf htf _ hmo]
          cases hpf : fs.putFails (deletionKey now e.messageId) with
          | true =>
            simp only [mark_putfail fs now e.messageId category hpf]
            apply state_ext <;> intro x <;>
              by_cases hx : x = archiveKey category now e.messageId <;>
              simp [hx, hsrc, hkd]
          | false =>
            simp only [mark_ok fs now e.messageId category hpf]
            apply state_ext <;> intro x <;>
              by_cases hx1 : x = deletionKey now e.messageId <;>
              by_cases hx2 : x = archiveKey category now e.messageId <;>
              simp [hx1, hx2, hsrc, hkd]
  · cases hcf : fs.copyFails e.s3Key (processedKey category now e.messageId) with
    | true => simp only [move_copy_fail fs now e category hcf]
    | false =>
      cases hsrc : s.objects e.s3Key with
      | none => simp only [move_src_none fs now e category hcf s hsrc]
      | some c =>
        cases hdf : fs.deleteFails e.s3Key with
        | true =>
          rw [move_some_delfail fs now e category c hcf hdf s hsrc]
          have hs1o : (updTags (updObj s (processedKey category now
              e.messageId) c) (processedKey category now e.messageId)
              (s.tags e.s3Key)).objects e.s3Key = some c := by
            by_cases hkp : e.s3Key = processedKey category now e.messageId <;>
              simp [hkp, hsrc]
          rw [move_some_delfail fs now e category c hcf hdf _ hs1o]
          apply state_ext <;> intro x <;>
            by_cases hx : x = processedKey category now e.messageId <;>
            simp [hx, hsrc]
        | false =>
          rw [move_some_ok fs now e category c hcf hdf s hsrc]
          have hro : (delObj
              (updTags (updObj s (processedKey category now e.messageId) c)
                (processedKey category now e.messageId) (s.tags e.s3Key))
              e.s3Key).objects e.s3Key = none := by simp
          rw [move_src_none fs now e category hcf _ hro]

/-- C6 witness: the idempotence theorem applied to the first scenario
item at its concrete pending and destination keys. -/
theorem transition_idempotent_witness :
    archiveTransition noFail nowW
        (archiveTransition noFail nowW store3
          ⟨"msg1", "pending/msg1.json", .email d1, "rh1"⟩ "spam")
        ⟨"msg1", "pending/msg1.json", .email d1, "rh1"⟩ "spam"
      = archiveTransition noFail nowW store3
          ⟨"msg1", "pending/msg1.json", .email d1, "rh1"⟩ "spam"
    ∧ move_to_processed noFail nowW
        (move_to_processed noFail nowW store3
          ⟨"msg2", "pending/msg2.json", .email d2, "rh2"⟩ "work")
        ⟨"msg2", "pending/msg2.json", .email d2, "rh2"⟩ "work"
      = move_to_processed noFail nowW store3
          ⟨"msg2", "pending/msg2.json", .email d2, "rh2"⟩ "work" :=
  ⟨(transition_idempotent noFail nowW store3
      ⟨"msg1", "pending/msg1.json", .email d1, "rh1"⟩ "spam" (by decide)).1,
   (transition_idempotent noFail nowW store3
      ⟨"msg2", "pending/msg2.json", .email d2, "rh2"⟩ "work" (by decide)).2⟩

end GiddyAboutEmail
